import Mathlib

/-!
Shallow embedding of the PID core of OpenAeroVTOL
(src/OpenAeroVTOL_EVO/OpenAeroVTOL/src/pid.c) and verification of its
specification claims.

Modelling conventions:
* The target is an AVR microcontroller (avr-gcc): `int` is 16 bits wide, so
  arithmetic on promoted `int16_t`/`int8_t` operands wraps at 16 bits
  (`wrap16`), while `int32_t` arithmetic wraps at 32 bits (`wrap32`).
  Arithmetic right shift of a two's-complement value is floor division by a
  power of two (`asr`); C integer division truncates toward zero
  (`Int.tdiv`).
* C `float` values are modelled as exact rationals (`ℚ`); a float-to-integer
  cast truncates toward zero (`qtrunc`).  The compile-time high-pass filter
  coefficients `HPF_O`, `HPF_C`, `HPF_L` are float-rounded values of
  expressions involving pi, so they appear as parameters (`hpfO`, `hpfC`,
  `hpfL`) of the configuration; likewise the gyro LPF coefficient looked up
  from the `LPF_lookup` / `LPF_lookup_HS` tables appears as the parameter
  `lpfCoeff`, with `lpfOff` standing for `Config.Gyro_LPF == NOFILTER`.
* Axes are `Fin 3` (`ROLL = 0`, `PITCH = 1`, `YAW = 2`); the extended index
  used by the I-term tables is `Fin 4` with `ZED = 3`; flight profiles
  (`P1`, `P2`) are `Fin 2`.
* `GyroDTerm` is declared in pid.c but never written or read there, so it is
  omitted from the state.
-/

namespace NextcopterPid

/-- Two's-complement wrap to the signed 16-bit range, the behaviour of AVR
`int` / `int16_t` arithmetic and of narrowing stores into `int16_t`. -/
def wrap16 (x : ℤ) : ℤ := (x + 32768) % 65536 - 32768

/-- Two's-complement wrap to the signed 32-bit range (`int32_t`). -/
def wrap32 (x : ℤ) : ℤ := (x + 2147483648) % 4294967296 - 2147483648

/-- Arithmetic shift right by `n` bits: floor division by `2 ^ n`
(gcc's `>>` on a negative signed operand is the sign-extending shift). -/
def asr (x : ℤ) (n : ℕ) : ℤ := x / 2 ^ n

/-- C float-to-integer conversion on the rational model of `float`:
truncation toward zero. -/
def qtrunc (q : ℚ) : ℤ := if 0 ≤ q then ⌊q⌋ else ⌈q⌉

/-- Two consecutive, independently tested saturation `if`s, as in the
integrator limiting of `Sensor_PID` (pid.c lines 233-244 and 322-335). -/
def clampSeq {α : Type} [LinearOrder α] [Neg α] (lim v : α) : α :=
  if (if lim < v then lim else v) < -lim then -lim else (if lim < v then lim else v)

/-- `if` / `else if` saturation, as in the I-term output limiting of
`Calculate_PID` (pid.c lines 429-447). -/
def clampLim {α : Type} [LinearOrder α] [Neg α] (lim v : α) : α :=
  if lim < v then lim else if v < -lim then -lim else v

/-- The signed 32-bit range, used to express absence of `int32_t` overflow. -/
def inInt32 (x : ℤ) : Prop := -2147483648 ≤ x ∧ x ≤ 2147483647

instance (x : ℤ) : Decidable (inInt32 x) := by unfold inInt32; infer_instance

/-- Embed a roll/pitch/yaw axis into the extended index space whose last
entry is the vertical (`ZED`) slot. -/
def axZ (a : Fin 3) : Fin 4 := ⟨a.1, Nat.lt_succ_of_lt a.2⟩

/-- The configuration data read by the PID core (`Config` fields and the
gain/rate tables built from `Config.FlightMode` at the top of the two
functions).  Machine integers are modelled as unconstrained `ℤ`; range
hypotheses appear in the theorems that need them. -/
structure Config where
  Stick_rate : Fin 2 → Fin 3 → ℤ
  P_gain : Fin 2 → Fin 3 → ℤ
  I_gain : Fin 2 → Fin 4 → ℤ
  L_gain : Fin 2 → Fin 3 → ℤ
  L_trim : Fin 2 → Fin 2 → ℤ
  Yaw_trim : Fin 2 → ℤ
  Raw_I_Constrain : Fin 2 → Fin 4 → ℤ
  Raw_I_Limits : Fin 2 → Fin 4 → ℤ
  AccVertFilter : ℤ
  Vibration : Bool
  lpfOff : Bool
  lpfCoeff : ℚ
  hpfO : ℚ
  hpfC : ℚ
  hpfL : ℚ

/-- The persistent globals of pid.c that the two entry points read and
write. -/
structure PidState where
  PID_Gyros : Fin 2 → Fin 3 → ℤ
  PID_ACCs : Fin 2 → Fin 3 → ℤ
  IntegralGyro : Fin 2 → Fin 3 → ℤ
  IntegralAccVertf : Fin 2 → ℚ
  gyroSmooth : Fin 3 → ℚ
  PID_AvgGyro : Fin 3 → ℤ
  GyroAvgNoise : ℚ
  HPF_V : ℚ
  HPF_T : ℚ
  HPF_I : ℚ
  gyroADC : Fin 3 → ℤ

/-- Per-tick external inputs of `Sensor_PID`: raw receiver sticks, the gyro
readings freshly written into `gyroADC` by the sensor driver before the
call, the raw gyro readings used by the noise estimator, the smoothed
vertical acceleration `accVertf`, and the elapsed period (a `uint32_t`). -/
structure TickInput where
  aileron : ℤ
  elevator : ℤ
  rudder : ℤ
  gyroIn : Fin 3 → ℤ
  gyroRaw : Fin 3 → ℤ
  accVertf : ℚ
  period : ℕ

/-- External inputs of `Calculate_PID`: the tick count since the last call,
the roll/pitch angle estimates, and the current `accVertf`. -/
structure CombInput where
  LoopCount : ℤ
  angle : Fin 2 → ℤ
  accVertf : ℚ

/-- `RCinputsAxis` (pid.c line 107): roll stick is negated (16-bit negate),
pitch and yaw pass through. -/
def rcAxis (inp : TickInput) (a : Fin 3) : ℤ :=
  if a = 0 then wrap16 (-inp.aileron) else if a = 1 then inp.elevator else inp.rudder

/-- Stick rate mapper (pid.c lines 149-165): settings `<= 6` shift right by
`4 - (setting - 2)` bits, settings `> 6` shift left by `setting - 6` bits;
the result is stored into an `int16_t`. -/
def stickMap (rate x : ℤ) : ℤ :=
  if rate ≤ 6 then asr x (6 - rate).toNat else wrap16 (x * 2 ^ (rate - 6).toNat)

/-- The 16-bit sum of the three raw gyro readings, promoted to float
(pid.c line 123). -/
def rawSum (raw : Fin 3 → ℤ) : ℚ := ((wrap16 (raw 0 + raw 1 + raw 2) : ℤ) : ℚ)

/-- The high-pass residual of the noise estimator (pid.c lines 127-130):
the raw sum minus the filtered component, after the `HPF_V` update. -/
def noiseResidual (cfg : Config) (V I fs0 : ℚ) : ℚ :=
  fs0 - (V + (I + (fs0 * cfg.hpfO - V)) / cfg.hpfC) / cfg.hpfO

/-- The decay factor `1 - Config.AccVertFilter / 10000` applied to the
vertical integrator each tick (pid.c lines 311-316). -/
def decayFactor (f : ℤ) : ℚ := 1 - (f : ℚ) / 10000

/-- `Sensor_PID` (pid.c lines 86-336): noise estimate, gyro LPF, stick-rate
mapping, period-scaled gyro I-term accumulation with saturation, gyro
sample accumulation, and the vertical-acceleration integrator with decay
and saturation.  The per-axis loop iterations are independent, so the state
is built componentwise; `abs(fsample)` is the C `int` `abs`, so its
argument is first truncated to a 16-bit integer. -/
def sensorTick (cfg : Config) (inp : TickInput) (s : PidState) : PidState :=
  let fs0 : ℚ := rawSum inp.gyroRaw
  let T1 : ℚ := fs0 * cfg.hpfO - s.HPF_V
  let V1 : ℚ := s.HPF_V + (s.HPF_I + T1) / cfg.hpfC
  let I1 : ℚ := s.HPF_I + T1 / cfg.hpfL
  let r : ℚ := noiseResidual cfg s.HPF_V s.HPF_I fs0
  let n1 : ℚ := (s.GyroAvgNoise * 99 + ((wrap16 |wrap16 (qtrunc r)| : ℤ) : ℚ)) / 100
  let n2 : ℚ := if 999 < n1 then 999 else n1
  let smooth : Fin 3 → ℚ := fun a =>
    if cfg.lpfOff then ((inp.gyroIn a : ℤ) : ℚ)
    else (s.gyroSmooth a * (cfg.lpfCoeff - 1) + ((inp.gyroIn a : ℤ) : ℚ)) / cfg.lpfCoeff
  let gAdc : Fin 3 → ℤ := fun a => wrap16 (qtrunc (smooth a))
  let factor : ℚ := (inp.period : ℚ) / 3571
  let inc : Fin 2 → Fin 3 → ℤ := fun p a =>
    wrap32 (qtrunc (((wrap16 (gAdc a + stickMap (cfg.Stick_rate p a) (rcAxis inp a)) : ℤ) : ℚ)
      * factor))
  { PID_Gyros := s.PID_Gyros
    PID_ACCs := s.PID_ACCs
    IntegralGyro := fun p a =>
      clampSeq (cfg.Raw_I_Constrain p (axZ a)) (wrap32 (s.IntegralGyro p a + inc p a))
    IntegralAccVertf := fun p =>
      clampSeq ((cfg.Raw_I_Constrain p 3 : ℤ) : ℚ)
        ((s.IntegralAccVertf p + inp.accVertf) * decayFactor cfg.AccVertFilter)
    gyroSmooth := smooth
    PID_AvgGyro := fun a => wrap32 (s.PID_AvgGyro a + gAdc a)
    GyroAvgNoise := if cfg.Vibration then n2 else s.GyroAvgNoise
    HPF_V := if cfg.Vibration then V1 else s.HPF_V
    HPF_T := if cfg.Vibration then T1 else s.HPF_T
    HPF_I := if cfg.Vibration then I1 else s.HPF_I
    gyroADC := gAdc }

/-- The tick-averaged gyro sample written back into `gyroADC`
(pid.c line 386): truncating 32-bit division, narrowed to `int16_t`. -/
def gyroAvg (reg K : ℤ) : ℤ := wrap16 (Int.tdiv reg K)

/-- The proportional part `PID_gyro_temp` of `Calculate_PID`
(pid.c lines 393-419): the yaw-trim bias (`Yaw_trim << 6`, 16-bit), plus
the 16-bit product of the averaged sample and the P-gain, accumulated and
tripled in 32-bit arithmetic. -/
def gyroPTerm (cfg : Config) (p : Fin 2) (a : Fin 3) (reg K : ℤ) : ℤ :=
  wrap32 (wrap32 ((if a = 2 then wrap16 (cfg.Yaw_trim p * 64) else 0)
    + wrap16 (gyroAvg reg K * cfg.P_gain p a)) * 3)

/-- The clamped integral part `PID_Gyro_I_actual` of `Calculate_PID`
(pid.c lines 414-447): 32-bit product with the I-gain, arithmetic shift
right by 5, then the output limit. -/
def gyroITerm (cfg : Config) (p : Fin 2) (a : Fin 3) (I : ℤ) : ℤ :=
  clampLim (cfg.Raw_I_Limits p (axZ a)) (asr (wrap32 (I * cfg.I_gain p (axZ a))) 5)

/-- The roll/pitch leveling correction (pid.c lines 460-469). -/
def accLevel (cfg : Config) (cin : CombInput) (p : Fin 2) (j : Fin 2) : ℤ :=
  wrap16 (asr (wrap32 (wrap16 (cin.angle j - cfg.L_trim p j) * cfg.L_gain p (Fin.castSucc j))) 8)

/-- The vertical-axis PI correction (pid.c lines 478-501). -/
def accVertPI (cfg : Config) (cin : CombInput) (p : Fin 2) (vI : ℚ) : ℤ :=
  wrap16 (asr (wrap32 (wrap32 (wrap32 (wrap32 (qtrunc (-cin.accVertf)) * cfg.L_gain p 2) * 3)
    + clampSeq (cfg.Raw_I_Limits p 3)
        (asr (wrap32 (wrap32 (qtrunc (-vI)) * cfg.I_gain p 3)) 2))) 6)

/-- `Calculate_PID` (pid.c lines 339-502): averages and resets the gyro
accumulator, publishes the gyro PID outputs and the leveling/vertical
corrections, leaving the integrators untouched. -/
def calcPID (cfg : Config) (cin : CombInput) (s : PidState) : PidState :=
  { PID_Gyros := fun p a =>
      wrap16 (asr (wrap32 (gyroPTerm cfg p a (s.PID_AvgGyro a) cin.LoopCount
        + gyroITerm cfg p a (s.IntegralGyro p a))) 6)
    PID_ACCs := fun p a =>
      if h : a.1 < 2 then accLevel cfg cin p ⟨a.1, h⟩
      else accVertPI cfg cin p (s.IntegralAccVertf p)
    IntegralGyro := s.IntegralGyro
    IntegralAccVertf := s.IntegralAccVertf
    gyroSmooth := s.gyroSmooth
    PID_AvgGyro := fun _ => 0
    GyroAvgNoise := s.GyroAvgNoise
    HPF_V := s.HPF_V
    HPF_T := s.HPF_T
    HPF_I := s.HPF_I
    gyroADC := fun a => gyroAvg (s.PID_AvgGyro a) cin.LoopCount }

/-- An interleaving of Sampler ticks and Combiner calls. -/
inductive Event where
  | tick : TickInput → Event
  | combine : CombInput → Event

/-- One scheduler step. -/
def stepEvent (cfg : Config) (s : PidState) : Event → PidState
  | Event.tick i => sensorTick cfg i s
  | Event.combine c => calcPID cfg c s

/-- Run a sequence of scheduler events. -/
def runEvents (cfg : Config) (s : PidState) : List Event → PidState
  | [] => s
  | e :: es => runEvents cfg (stepEvent cfg s e) es

/-- Power-on state: C zero-initialised globals. -/
def initState : PidState :=
  { PID_Gyros := fun _ _ => 0
    PID_ACCs := fun _ _ => 0
    IntegralGyro := fun _ _ => 0
    IntegralAccVertf := fun _ => 0
    gyroSmooth := fun _ => 0
    PID_AvgGyro := fun _ => 0
    GyroAvgNoise := 0
    HPF_V := 0
    HPF_T := 0
    HPF_I := 0
    gyroADC := fun _ => 0 }

/-- Modelled from the spec: the vertical-integrator update as claimed in
section 4.4 — add `accVertf`, decay, then clamp to
`±Config.Raw_I_Limits[profile][ZED]` (the output-limit table).  The code
(pid.c lines 322-335) clamps to `Raw_I_Constrain` instead; this definition
exists to be compared against `sensorTick`. -/
def vertIntegralSpec (cfg : Config) (p : Fin 2) (v acc : ℚ) : ℚ :=
  clampSeq ((cfg.Raw_I_Limits p 3 : ℤ) : ℚ) ((v + acc) * decayFactor cfg.AccVertFilter)

/-- A tick whose stick and gyro inputs are all zero. -/
def zeroTickInput (i : TickInput) : Prop :=
  i.aileron = 0 ∧ i.elevator = 0 ∧ i.rudder = 0 ∧
    (∀ a, i.gyroIn a = 0) ∧ (∀ a, i.gyroRaw a = 0)

instance (i : TickInput) : Decidable (zeroTickInput i) := by
  unfold zeroTickInput; infer_instance

/-- All-zero configuration used to instantiate hypotheses. -/
def cfg0 : Config :=
  { Stick_rate := fun _ _ => 0
    P_gain := fun _ _ => 0
    I_gain := fun _ _ => 0
    L_gain := fun _ _ => 0
    L_trim := fun _ _ => 0
    Yaw_trim := fun _ => 0
    Raw_I_Constrain := fun _ _ => 0
    Raw_I_Limits := fun _ _ => 0
    AccVertFilter := 0
    Vibration := false
    lpfOff := true
    lpfCoeff := 0
    hpfO := 0
    hpfC := 0
    hpfL := 0 }

/-- All-zero tick input. -/
def tick0 : TickInput :=
  { aileron := 0, elevator := 0, rudder := 0
    gyroIn := fun _ => 0, gyroRaw := fun _ => 0, accVertf := 0, period := 0 }

/-- Combiner input for a single elapsed tick and zero sensors. -/
def cin1 : CombInput := { LoopCount := 1, angle := fun _ => 0, accVertf := 0 }

/-- Configuration distinguishing the two limit tables at the vertical slot:
anti-windup constraint 5, output limit 100. -/
def cfgC1 : Config := { cfg0 with Raw_I_Constrain := fun _ _ => 5, Raw_I_Limits := fun _ _ => 100 }

/-- State with the vertical integrators preloaded at 50. -/
def stC1 : PidState := { initState with IntegralAccVertf := fun _ => 50 }

/-- Configuration with all P-gains 10 and everything else zero. -/
def cfgP10 : Config := { cfg0 with P_gain := fun _ _ => 10 }

/-- State whose gyro accumulators hold 100. -/
def stAvg100 : PidState := { initState with PID_AvgGyro := fun _ => 100 }

/-- Configuration with all P-gains 100. -/
def cfgC3 : Config := { cfg0 with P_gain := fun _ _ => 100 }

/-- State whose gyro accumulators hold 1000 (one tick's sample of 1000). -/
def stC3 : PidState := { initState with PID_AvgGyro := fun _ => 1000 }

/-- Configuration whose anti-windup limits allow the full `int32_t` range
and whose I-gains are at the maximum 127. -/
def cfgC5 : Config :=
  { cfg0 with Raw_I_Constrain := fun _ _ => 2147483647, I_gain := fun _ _ => 127 }

/-- Small bounded configuration for the no-overflow instance. -/
def cfgC5w : Config :=
  { cfg0 with
    Raw_I_Constrain := fun _ _ => 100
    I_gain := fun _ _ => 5
    Raw_I_Limits := fun _ _ => 50 }

/-- State with every gyro integrator at 60. -/
def stC5w : PidState := { initState with IntegralGyro := fun _ _ => 60 }

/-- Configuration that is all zero except a yaw trim of 1 on profile P1. -/
def cfgC8 : Config := { cfg0 with Yaw_trim := fun p => if p = 0 then 1 else 0 }

/-- Configuration with vibration display enabled and concrete high-pass
coefficients. -/
def cfgC9 : Config := { cfg0 with Vibration := true, hpfO := 2, hpfC := 4, hpfL := 1 }

/-- Tick whose raw gyros each read 7 (all else zero). -/
def inpC9 : TickInput := { tick0 with gyroRaw := fun _ => 7 }

/-!  Helper lemmas about the machine-arithmetic primitives. -/

theorem wrap16_eq_self {x : ℤ} (h1 : -32768 ≤ x) (h2 : x ≤ 32767) : wrap16 x = x := by
  unfold wrap16; omega

theorem wrap32_eq_self {x : ℤ} (h1 : -2147483648 ≤ x) (h2 : x ≤ 2147483647) : wrap32 x = x := by
  unfold wrap32; omega

theorem wrap16_mem (x : ℤ) : -32768 ≤ wrap16 x ∧ wrap16 x ≤ 32767 := by
  unfold wrap16; omega

theorem wrap16_zero : wrap16 0 = 0 := by decide

theorem wrap32_zero : wrap32 0 = 0 := by decide

theorem asr_zero (n : ℕ) : asr 0 n = 0 := by unfold asr; simp

theorem qtrunc_zero : qtrunc 0 = 0 := by unfold qtrunc; simp

theorem clampSeq_abs_le {lim v : ℤ} (h : 0 ≤ lim) : |clampSeq lim v| ≤ lim := by
  unfold clampSeq; split_ifs <;> rw [abs_le] <;> omega

theorem clampSeq_zero {lim : ℤ} (h : 0 ≤ lim) : clampSeq lim 0 = 0 := by
  unfold clampSeq; split_ifs <;> omega

theorem clampLim_zero {lim : ℤ} (h : 0 ≤ lim) : clampLim lim 0 = 0 := by
  unfold clampLim; split_ifs <;> omega

theorem clampLim_abs_le {lim v : ℤ} (h : 0 ≤ lim) : |clampLim lim v| ≤ lim := by
  unfold clampLim; split_ifs <;> rw [abs_le] <;> omega

/-!  Claim theorems. -/

/-- Claim C1 (amended): every Sampler tick updates the vertical integrator of
each profile by first adding `accVertf`, then multiplying by
`1 - Config.AccVertFilter / 10000`, and finally clamping to the symmetric
range given by `Config.Raw_I_Constrain[p][ZED]` — the anti-windup table, not
the output-limit table `Raw_I_Limits` the claim names. -/
theorem C1_vertical_integrator (cfg : Config) (inp : TickInput) (s : PidState) (p : Fin 2) :
    (sensorTick cfg inp s).IntegralAccVertf p
      = clampSeq ((cfg.Raw_I_Constrain p 3 : ℤ) : ℚ)
          ((s.IntegralAccVertf p + inp.accVertf) * decayFactor cfg.AccVertFilter) := rfl

/-- Claim C1 as stated is false: with `Raw_I_Constrain[ZED] = 5` and
`Raw_I_Limits[ZED] = 100`, a tick from a vertical integrator of 50 with zero
input yields 5 (the code clamps to the anti-windup table), not the 50 that
clamping to the output-limit table would produce. -/
theorem C1_counterexample :
    (sensorTick cfgC1 tick0 stC1).IntegralAccVertf 0
      ≠ vertIntegralSpec cfgC1 0 (stC1.IntegralAccVertf 0) tick0.accVertf := by
  norm_num [sensorTick, vertIntegralSpec, clampSeq, decayFactor, cfgC1, cfg0, stC1,
    initState, tick0]

/-- Claim C2: starting from the zero power-on state, after every sequence of
Sampler and Combiner calls each gyro integrator's magnitude is bounded by
the configured `Raw_I_Constrain` limit (assumed nonnegative); the Sampler
re-establishes the bound by saturation on every tick and the Combiner never
touches the integrators. -/
theorem C2_clamp_invariant (cfg : Config)
    (hlim : ∀ p a, 0 ≤ cfg.Raw_I_Constrain p (axZ a))
    (es : List Event) (p : Fin 2) (a : Fin 3) :
    |(runEvents cfg initState es).IntegralGyro p a| ≤ cfg.Raw_I_Constrain p (axZ a) := by
  suffices h : ∀ s : PidState,
      (∀ q b, |s.IntegralGyro q b| ≤ cfg.Raw_I_Constrain q (axZ b)) →
      ∀ q b, |(runEvents cfg s es).IntegralGyro q b| ≤ cfg.Raw_I_Constrain q (axZ b) by
    refine h initState (fun q b => ?_) p a
    show |(0 : ℤ)| ≤ _
    simpa using hlim q b
  induction es with
  | nil => exact fun s hs => hs
  | cons e es ih =>
    intro s hs
    refine ih (stepEvent cfg s e) ?_
    cases e with
    | tick i => exact fun q b => clampSeq_abs_le (hlim q b)
    | combine c => exact hs

/-- Witness for C2 at the all-zero configuration after one tick. -/
theorem C2_witness :
    |(runEvents cfg0 initState [Event.tick tick0]).IntegralGyro 0 0|
      ≤ cfg0.Raw_I_Constrain 0 (axZ 0) :=
  C2_clamp_invariant cfg0 (by decide) [Event.tick tick0] 0 0

/-- Claim C6: with an averaged roll gyro sample of 100, roll P-gain 10, zero
I-gain, one elapsed tick and zero stick, the Combiner's roll proportional
term is 100 * 10 * 3 = 3000 and the published roll output is
3000 >> 6 = 46. -/
theorem C6_scenario :
    gyroPTerm cfgP10 0 0 (stAvg100.PID_AvgGyro 0) cin1.LoopCount = 3000
    ∧ (calcPID cfgP10 cin1 stAvg100).PID_Gyros 0 0 = 46 := by decide

/-- Claim C7 (amended): a decay step with zero new input strictly shrinks
the magnitude of a NONZERO vertical integrator when `AccVertFilter` is a
nonzero setting in its 0..127 range, and leaves every integrator exactly
unchanged when the setting is zero.  (As stated, the claim fails for the
starting value zero.) -/
theorem C7_decay (f : ℤ) (v : ℚ) (hf0 : 0 < f) (hf : f ≤ 127) (hv : v ≠ 0) :
    |v * decayFactor f| < |v| ∧ ∀ w : ℚ, w * decayFactor 0 = w := by
  have hq0 : (0 : ℚ) < (f : ℚ) := by exact_mod_cast hf0
  have hq1 : (f : ℚ) ≤ 127 := by exact_mod_cast hf
  have hd0 : 0 < decayFactor f := by unfold decayFactor; linarith
  have hd1 : decayFactor f < 1 := by unfold decayFactor; linarith
  refine ⟨?_, fun w => by unfold decayFactor; norm_num⟩
  calc |v * decayFactor f| = |v| * |decayFactor f| := abs_mul v _
    _ = |v| * decayFactor f := by rw [abs_of_pos hd0]
    _ < |v| * 1 := mul_lt_mul_of_pos_left hd1 (abs_pos.mpr hv)
    _ = |v| := mul_one _

/-- Claim C7 is false for the starting value 0: with the nonzero setting 1
the decay step maps 0 to 0, whose magnitude is not strictly smaller. -/
theorem C7_counterexample :
    (0 : ℤ) < 1 ∧ ¬ (|(0 : ℚ) * decayFactor 1| < |(0 : ℚ)|) := by
  refine ⟨by decide, ?_⟩
  simp

/-- Witness for C7 at setting 1 and starting value 1. -/
theorem C7_witness :
    |(1 : ℚ) * decayFactor 1| < |(1 : ℚ)| ∧ ∀ w : ℚ, w * decayFactor 0 = w :=
  C7_decay 1 1 (by decide) (by decide) (by simp)

/-- Claim C3 (amended): given K >= 1 elapsed ticks whose known smoothed
samples sum into the accumulator, and provided the truncated average and
its product with the P-gain stay within the 16-bit `int` range of the AVR
target, the Combiner's proportional term for a non-yaw axis equals
P-gain * 3 * (sum of the samples / K) (truncating division), and the
accumulator is reset to zero in the same invocation. -/
theorem C3_averaging (cfg : Config) (cin : CombInput) (s : PidState) (p : Fin 2) (a : Fin 3)
    (ha : a ≠ 2) (samples : List ℤ) (hK : 1 ≤ cin.LoopCount)
    (hlen : (samples.length : ℤ) = cin.LoopCount)
    (hacc : s.PID_AvgGyro a = samples.sum)
    (havg : |Int.tdiv samples.sum cin.LoopCount| ≤ 32767)
    (hprod : |Int.tdiv samples.sum cin.LoopCount * cfg.P_gain p a| ≤ 32767) :
    gyroPTerm cfg p a (s.PID_AvgGyro a) cin.LoopCount
      = cfg.P_gain p a * 3 * Int.tdiv samples.sum cin.LoopCount
    ∧ (calcPID cfg cin s).PID_AvgGyro a = 0 := by
  refine ⟨?_, rfl⟩
  rw [hacc]
  obtain ⟨h1, h2⟩ := abs_le.mp havg
  obtain ⟨h3, h4⟩ := abs_le.mp hprod
  unfold gyroPTerm gyroAvg
  rw [if_neg ha]
  have e1 : wrap16 (Int.tdiv samples.sum cin.LoopCount) = Int.tdiv samples.sum cin.LoopCount :=
    wrap16_eq_self (by omega) (by omega)
  rw [e1]
  have e2 : wrap16 (Int.tdiv samples.sum cin.LoopCount * cfg.P_gain p a)
      = Int.tdiv samples.sum cin.LoopCount * cfg.P_gain p a :=
    wrap16_eq_self (by omega) (by omega)
  rw [e2, zero_add]
  have e3 : wrap32 (Int.tdiv samples.sum cin.LoopCount * cfg.P_gain p a)
      = Int.tdiv samples.sum cin.LoopCount * cfg.P_gain p a :=
    wrap32_eq_self (by omega) (by omega)
  rw [e3]
  have e4 : wrap32 (Int.tdiv samples.sum cin.LoopCount * cfg.P_gain p a * 3)
      = Int.tdiv samples.sum cin.LoopCount * cfg.P_gain p a * 3 :=
    wrap32_eq_self (by omega) (by omega)
  rw [e4]
  ring

/-- Claim C3 as stated is false: the averaged sample is multiplied by the
P-gain in 16-bit `int` arithmetic on the AVR target, so one tick of sample
1000 (accumulator 1000, K = 1) with P-gain 100 produces
wrap16(100000) * 3 = -93216, not 100 * 3 * 1000 = 300000. -/
theorem C3_counterexample :
    gyroPTerm cfgC3 0 0 (stC3.PID_AvgGyro 0) 1
      ≠ cfgC3.P_gain 0 0 * 3 * Int.tdiv (stC3.PID_AvgGyro 0) 1 := by decide

/-- Witness for C3 with one tick of sample 100 and P-gain 10. -/
theorem C3_witness :
    gyroPTerm cfgP10 0 0 (stAvg100.PID_AvgGyro 0) cin1.LoopCount
      = cfgP10.P_gain 0 0 * 3 * Int.tdiv (List.sum [(100 : ℤ)]) cin1.LoopCount
    ∧ (calcPID cfgP10 cin1 stAvg100).PID_AvgGyro 0 = 0 :=
  C3_averaging cfgP10 cin1 stAvg100 0 0 (by decide) [(100 : ℤ)] (by decide) (by decide)
    (by decide) (by decide) (by decide)

theorem stickMap_rate0 (x : ℤ) : stickMap 0 x = x / 64 := rfl

theorem stickMap_rate1 (x : ℤ) : stickMap 1 x = x / 32 := rfl

theorem stickMap_rate2 (x : ℤ) : stickMap 2 x = x / 16 := rfl

theorem stickMap_rate3 (x : ℤ) : stickMap 3 x = x / 8 := rfl

theorem stickMap_rate4 (x : ℤ) : stickMap 4 x = x / 4 := rfl

theorem stickMap_rate5 (x : ℤ) : stickMap 5 x = x / 2 := rfl

theorem stickMap_rate6 (x : ℤ) : stickMap 6 x = x / 1 := rfl

theorem stickMap_rate7 (x : ℤ) : stickMap 7 x = wrap16 (x * 2) := rfl

/-- Claim C4 (amended): for a fixed nonzero raw stick input in the range
[-16384, 16383] — so that the 16-bit left shift at setting 7 cannot
overflow — the magnitude of the mapped stick value is monotonically
non-decreasing in the rate setting over 0..7. -/
theorem C4_stick_monotone (x r1 r2 : ℤ) (hx : x ≠ 0)
    (hxl : -16384 ≤ x) (hxu : x ≤ 16383)
    (h0 : 0 ≤ r1) (h12 : r1 ≤ r2) (h7 : r2 ≤ 7) :
    |stickMap r1 x| ≤ |stickMap r2 x| := by
  have h17 : r1 ≤ 7 := le_trans h12 h7
  interval_cases r1 <;> interval_cases r2 <;>
    simp only [stickMap_rate0, stickMap_rate1, stickMap_rate2, stickMap_rate3,
      stickMap_rate4, stickMap_rate5, stickMap_rate6, stickMap_rate7, wrap16,
      Int.abs_eq_natAbs] <;> omega

/-- Claim C4 as stated is false: at the (nonzero, `int16_t`-representable)
raw stick input 30000 the step from setting 6 to setting 7 strictly
decreases the magnitude, because the 16-bit left shift wraps 60000 to
-5536. -/
theorem C4_counterexample :
    (30000 : ℤ) ≠ 0 ∧ (0 : ℤ) ≤ 6 ∧ (6 : ℤ) ≤ 7
    ∧ |stickMap 7 30000| < |stickMap 6 30000| := by decide

/-- Witness for C4 at input 100 between settings 3 and 5. -/
theorem C4_witness : |stickMap 3 100| ≤ |stickMap 5 100| :=
  C4_stick_monotone 100 3 5 (by decide) (by decide) (by decide) (by decide) (by decide)
    (by decide)

/-- The proportional term of the Combiner is always bounded: both 16-bit
contributions lie in [-32768, 32767], so after tripling the magnitude is at
most 196608 and no 32-bit wrap occurs. -/
theorem gyroPTerm_bound (cfg : Config) (p : Fin 2) (a : Fin 3) (reg K : ℤ) :
    |gyroPTerm cfg p a reg K| ≤ 196608 := by
  unfold gyroPTerm
  set b := (if a = 2 then wrap16 (cfg.Yaw_trim p * 64) else 0) with hb
  set w := wrap16 (gyroAvg reg K * cfg.P_gain p a) with hw
  have hbm : -32768 ≤ b ∧ b ≤ 32767 := by
    rw [hb]; split
    · exact wrap16_mem _
    · exact ⟨by norm_num, by norm_num⟩
  have hwm : -32768 ≤ w ∧ w ≤ 32767 := by rw [hw]; exact wrap16_mem _
  obtain ⟨hb1, hb2⟩ := hbm
  obtain ⟨hw1, hw2⟩ := hwm
  have e1 : wrap32 (b + w) = b + w := wrap32_eq_self (by omega) (by omega)
  rw [e1]
  have e2 : wrap32 ((b + w) * 3) = (b + w) * 3 := wrap32_eq_self (by omega) (by omega)
  rw [e2, abs_le]
  constructor <;> omega

/-- Claim C5 (amended): the clamp discipline alone does not exclude 32-bit
overflow; it does once the configured tables are bounded.  If the
integrator obeys its anti-windup clamp, the clamp is at most
16909320 = (2^31 - 1) / 127 rounded down (so the I-term product with any
gain of magnitude <= 127 fits), the per-tick increment is bounded by
2^31 - 1 minus the clamp, and the output-limit entry lies in
[0, 2^31 - 1 - 196608], then the integrator accumulation, the Combiner's
I-term product, and the P+I output sum all stay within signed 32-bit
range. -/
theorem C5_no_overflow (cfg : Config) (s : PidState) (p : Fin 2) (a : Fin 3) (t reg K : ℤ)
    (hclamp : |s.IntegralGyro p a| ≤ cfg.Raw_I_Constrain p (axZ a))
    (hCon : cfg.Raw_I_Constrain p (axZ a) ≤ 16909320)
    (hg : |cfg.I_gain p (axZ a)| ≤ 127)
    (ht : |t| ≤ 2147483647 - cfg.Raw_I_Constrain p (axZ a))
    (hL0 : 0 ≤ cfg.Raw_I_Limits p (axZ a))
    (hL : cfg.Raw_I_Limits p (axZ a) ≤ 2147287039) :
    inInt32 (s.IntegralGyro p a * cfg.I_gain p (axZ a))
    ∧ inInt32 (s.IntegralGyro p a + t)
    ∧ inInt32 (gyroPTerm cfg p a reg K + gyroITerm cfg p a (s.IntegralGyro p a)) := by
  have habs : |s.IntegralGyro p a * cfg.I_gain p (axZ a)| ≤ 16909320 * 127 := by
    rw [abs_mul]
    exact mul_le_mul (le_trans hclamp hCon) hg (abs_nonneg _) (by norm_num)
  obtain ⟨h1, h2⟩ := abs_le.mp habs
  obtain ⟨h3, h4⟩ := abs_le.mp hclamp
  obtain ⟨h5, h6⟩ := abs_le.mp ht
  refine ⟨⟨by omega, by omega⟩, ⟨by omega, by omega⟩, ?_⟩
  have hp := gyroPTerm_bound cfg p a reg K
  have hi : |gyroITerm cfg p a (s.IntegralGyro p a)| ≤ cfg.Raw_I_Limits p (axZ a) :=
    clampLim_abs_le hL0
  obtain ⟨h7, h8⟩ := abs_le.mp hp
  obtain ⟨h9, h10⟩ := abs_le.mp hi
  exact ⟨by omega, by omega⟩

/-- Claim C5 as stated is false: with `Raw_I_Constrain = 2^31 - 1` and
I-gain 127 the clamp invariant admits an integrator of 2^31 - 1 whose
I-term product leaves the signed 32-bit range, so the code's 32-bit
multiply wraps: the clamp discipline alone does not prevent overflow. -/
theorem C5_counterexample :
    |(2147483647 : ℤ)| ≤ cfgC5.Raw_I_Constrain 0 (axZ 0)
    ∧ ¬ inInt32 (2147483647 * cfgC5.I_gain 0 (axZ 0))
    ∧ wrap32 (2147483647 * cfgC5.I_gain 0 (axZ 0))
        ≠ 2147483647 * cfgC5.I_gain 0 (axZ 0) := by decide

/-- Witness for C5 at a small bounded configuration. -/
theorem C5_witness :
    inInt32 (stC5w.IntegralGyro 0 0 * cfgC5w.I_gain 0 (axZ 0))
    ∧ inInt32 (stC5w.IntegralGyro 0 0 + 5)
    ∧ inInt32 (gyroPTerm cfgC5w 0 0 0 1 + gyroITerm cfgC5w 0 0 (stC5w.IntegralGyro 0 0)) :=
  C5_no_overflow cfgC5w stC5w 0 0 5 0 1 (by decide) (by decide) (by decide) (by decide)
    (by decide) (by decide)

/-- Claim C8 (amended): after any number of Sampler ticks with zero stick
and gyro inputs followed by a Combiner call, every published output is
zero, provided all configured gains are zero AND the yaw trims are zero AND
the output-limit table is nonnegative (the last two conditions are missing
from the claim as stated). -/
theorem C8_zero_outputs (cfg : Config)
    (hP : ∀ p a, cfg.P_gain p a = 0) (hI : ∀ p a4, cfg.I_gain p a4 = 0)
    (hL : ∀ p a, cfg.L_gain p a = 0) (hT : ∀ p, cfg.Yaw_trim p = 0)
    (hLim : ∀ p a4, 0 ≤ cfg.Raw_I_Limits p a4)
    (ticks : List TickInput) (hticks : ∀ i ∈ ticks, zeroTickInput i)
    (cin : CombInput) (hK : 1 ≤ cin.LoopCount) (p : Fin 2) (a : Fin 3) :
    (calcPID cfg cin (runEvents cfg initState (ticks.map Event.tick))).PID_Gyros p a = 0
    ∧ (calcPID cfg cin (runEvents cfg initState (ticks.map Event.tick))).PID_ACCs p a
        = 0 := by
  set s := runEvents cfg initState (ticks.map Event.tick) with hs
  have hPT : gyroPTerm cfg p a (s.PID_AvgGyro a) cin.LoopCount = 0 := by
    unfold gyroPTerm
    rw [hP, hT, mul_zero, zero_mul]
    simp [wrap16_zero, wrap32_zero]
  have hIT : gyroITerm cfg p a (s.IntegralGyro p a) = 0 := by
    unfold gyroITerm
    rw [hI, mul_zero, wrap32_zero, asr_zero]
    exact clampLim_zero (hLim p (axZ a))
  constructor
  · show wrap16 (asr (wrap32 (gyroPTerm cfg p a (s.PID_AvgGyro a) cin.LoopCount
        + gyroITerm cfg p a (s.IntegralGyro p a))) 6) = 0
    rw [hPT, hIT, add_zero, wrap32_zero, asr_zero, wrap16_zero]
  · show (if h : a.1 < 2 then accLevel cfg cin p ⟨a.1, h⟩
        else accVertPI cfg cin p (s.IntegralAccVertf p)) = 0
    split
    · unfold accLevel
      rw [hL, mul_zero, wrap32_zero, asr_zero, wrap16_zero]
    · unfold accVertPI
      rw [hL, hI]
      simp [wrap32_zero, asr_zero, wrap16_zero, clampSeq_zero (hLim p 3)]

/-- Claim C8 as stated is false: with zero sticks, gyros and gains but a
configured yaw trim of 1 on profile P1, one tick followed by a Combiner
call publishes PID_Gyros[P1][YAW] = (3 * (1 << 6)) >> 6 = 3, not 0. -/
theorem C8_counterexample :
    (calcPID cfgC8 cin1 (runEvents cfgC8 initState [Event.tick tick0])).PID_Gyros 0 2
      ≠ 0 := by
  have hrun : runEvents cfgC8 initState [Event.tick tick0]
      = sensorTick cfgC8 tick0 initState := rfl
  have h2 : (sensorTick cfgC8 tick0 initState).PID_AvgGyro 2 = 0 := by
    norm_num [sensorTick, qtrunc, wrap16, wrap32, cfgC8, cfg0, tick0, initState]
  have h3 : (sensorTick cfgC8 tick0 initState).IntegralGyro 0 2 = 0 := by
    norm_num [sensorTick, qtrunc, wrap16, wrap32, stickMap, rcAxis, asr, clampSeq,
      cfgC8, cfg0, tick0, initState]
  rw [hrun]
  show wrap16 (asr (wrap32 (gyroPTerm cfgC8 0 2
      ((sensorTick cfgC8 tick0 initState).PID_AvgGyro 2) cin1.LoopCount
    + gyroITerm cfgC8 0 2
      ((sensorTick cfgC8 tick0 initState).IntegralGyro 0 2))) 6) ≠ 0
  rw [h2, h3]
  decide

/-- Witness for C8 at the all-zero configuration after one zero tick. -/
theorem C8_witness :
    (calcPID cfg0 cin1 (runEvents cfg0 initState ([tick0].map Event.tick))).PID_Gyros 0 0 = 0
    ∧ (calcPID cfg0 cin1 (runEvents cfg0 initState ([tick0].map Event.tick))).PID_ACCs 0 0
        = 0 :=
  C8_zero_outputs cfg0 (by decide) (by decide) (by decide) (by decide) (by decide)
    [tick0] (by decide) cin1 (by decide) 0 0

/-- When vibration display is enabled, the Sampler's noise-estimate update
(pid.c lines 120-140) computed by `sensorTick`, written in closed form. -/
theorem sensorTick_noise (cfg : Config) (inp : TickInput) (s : PidState)
    (hv : cfg.Vibration = true) :
    (sensorTick cfg inp s).GyroAvgNoise
      = (if 999 < (s.GyroAvgNoise * 99
            + ((wrap16 |wrap16 (qtrunc (noiseResidual cfg s.HPF_V s.HPF_I
                (rawSum inp.gyroRaw)))| : ℤ) : ℚ)) / 100
         then 999
         else (s.GyroAvgNoise * 99
            + ((wrap16 |wrap16 (qtrunc (noiseResidual cfg s.HPF_V s.HPF_I
                (rawSum inp.gyroRaw)))| : ℤ) : ℚ)) / 100) := by
  simp [sensorTick, hv]

/-- Claim C9 (amended): on every tick with vibration display enabled the
noise estimate becomes `(99 * previous + |r16|) / 100` where `r16` is the
high-pass residual first converted to a 16-bit C `int` (the code applies
the integer `abs` of stdlib.h to the float residual, truncating it), capped
at 999; in particular the published estimate never exceeds 999. -/
theorem C9_noise_update (cfg : Config) (inp : TickInput) (s : PidState)
    (hv : cfg.Vibration = true) :
    (sensorTick cfg inp s).GyroAvgNoise
      = (if 999 < (s.GyroAvgNoise * 99
            + ((wrap16 |wrap16 (qtrunc (noiseResidual cfg s.HPF_V s.HPF_I
                (rawSum inp.gyroRaw)))| : ℤ) : ℚ)) / 100
         then 999
         else (s.GyroAvgNoise * 99
            + ((wrap16 |wrap16 (qtrunc (noiseResidual cfg s.HPF_V s.HPF_I
                (rawSum inp.gyroRaw)))| : ℤ) : ℚ)) / 100)
    ∧ (sensorTick cfg inp s).GyroAvgNoise ≤ 999 := by
  have he := sensorTick_noise cfg inp s hv
  refine ⟨he, ?_⟩
  rw [he]
  split_ifs with h
  · exact le_refl _
  · exact le_of_not_lt h

/-- Claim C9 as stated is false: the code applies the C integer `abs` to
the float residual, truncating it first.  With high-pass coefficients
O = 2, C = 4, L = 1, zero filter state and raw gyro readings of 7 each
(sum 21), the residual is 63/4; the code's update yields
(99 * 0 + 15) / 100 = 3/20 while the claimed formula gives
(99 * 0 + 63/4) / 100 = 63/400. -/
theorem C9_counterexample :
    (sensorTick cfgC9 inpC9 initState).GyroAvgNoise
      ≠ (if 999 < (initState.GyroAvgNoise * 99
            + |noiseResidual cfgC9 initState.HPF_V initState.HPF_I
                (rawSum inpC9.gyroRaw)|) / 100
         then 999
         else (initState.GyroAvgNoise * 99
            + |noiseResidual cfgC9 initState.HPF_V initState.HPF_I
                (rawSum inpC9.gyroRaw)|) / 100) := by
  have hr : noiseResidual cfgC9 initState.HPF_V initState.HPF_I (rawSum inpC9.gyroRaw)
      = 63 / 4 := by
    norm_num [noiseResidual, rawSum, wrap16, cfgC9, cfg0, inpC9, tick0, initState]
  have hq : qtrunc (63 / 4 : ℚ) = 15 := by
    unfold qtrunc
    rw [if_pos (by norm_num), Int.floor_eq_iff]
    constructor <;> norm_num
  have hw : wrap16 |wrap16 (15 : ℤ)| = 15 := by decide
  have hl : (sensorTick cfgC9 inpC9 initState).GyroAvgNoise = 3 / 20 := by
    rw [sensorTick_noise cfgC9 inpC9 initState rfl, hr, hq, hw]
    norm_num [initState]
  rw [hl, hr]
  have ha : |(63 / 4 : ℚ)| = 63 / 4 := abs_of_nonneg (by norm_num)
  rw [ha]
  norm_num [initState]

/-- Witness for C9 at the concrete enabled configuration. -/
theorem C9_witness :
    (sensorTick cfgC9 inpC9 initState).GyroAvgNoise
      = (if 999 < (initState.GyroAvgNoise * 99
            + ((wrap16 |wrap16 (qtrunc (noiseResidual cfgC9 initState.HPF_V initState.HPF_I
                (rawSum inpC9.gyroRaw)))| : ℤ) : ℚ)) / 100
         then 999
         else (initState.GyroAvgNoise * 99
            + ((wrap16 |wrap16 (qtrunc (noiseResidual cfgC9 initState.HPF_V initState.HPF_I
                (rawSum inpC9.gyroRaw)))| : ℤ) : ℚ)) / 100)
    ∧ (sensorTick cfgC9 inpC9 initState).GyroAvgNoise ≤ 999 :=
  C9_noise_update cfgC9 inpC9 initState rfl

/-- Claim C10: every Combiner call overwrites the shared `gyroADC` array
with the tick-averaged accumulator value, and it stays there until a
Sampler tick rewrites `gyroADC` with the demoted smoothed sample. -/
theorem C10_gyroADC_overwrite (cfg : Config) (cin : CombInput) (s : PidState)
    (i : TickInput) (s2 : PidState) (a : Fin 3) :
    (calcPID cfg cin s).gyroADC a = gyroAvg (s.PID_AvgGyro a) cin.LoopCount
    ∧ (sensorTick cfg i s2).gyroADC a
        = wrap16 (qtrunc ((sensorTick cfg i s2).gyroSmooth a)) :=
  ⟨rfl, rfl⟩

end NextcopterPid
